import Mathlib

/-!
Shallow embedding of `src/main/main.c` (`app_main`), an ESP32 harness that
loads a byte-embedded TFLite-Micro model, allocates a fixed tensor arena,
runs four hard-coded inference trials with tolerance checking, and then
enters an idle heartbeat loop.

Modelling choices:
* `float` values are modelled as `ℚ`; the tolerance `0.1f` becomes `1/10`.
* The external TFLM engine (version field of the parsed model, tensor
  allocation planner, input/output tensor descriptors, `Invoke`) is a
  parameter structure `Engine`; `app_main` is a pure function of it.
* `app_main` returns a `RunTrace` recording the exit path taken and the
  observable resource events: whether the arena `malloc` succeeded, how
  many times `free(tensor_arena)` ran, how many `AllocateTensors` calls,
  input-buffer writes and `Invoke` calls were issued, how many error-level
  (`ESP_LOGE`) log lines were emitted, and whether control reached the
  final `while(1)` heartbeat loop.
-/

namespace TflmHarness

/-- `TfLiteStatus` as seen by the harness: `kTfLiteOk` or an error code. -/
inductive Status where
  | ok : Status
  | err : ℤ → Status
deriving DecidableEq, Repr

/-- Observable result of one trial of the loop at main.c:98-123:
`pass` (output within tolerance, no warning logged), `passWithWarning`
(output outside tolerance, `ESP_LOGW` at main.c:121), or `invokeFailed`
(`Invoke` returned a non-ok status, `ESP_LOGE` at main.c:107 and
`continue`). -/
inductive TrialResult where
  | pass : ℚ → TrialResult
  | passWithWarning : ℚ → TrialResult
  | invokeFailed : ℤ → TrialResult
deriving DecidableEq, Repr

/-- The tolerance `0.1f` of the check at main.c:120. -/
def tolerance : ℚ := 1 / 10

/-- The hard-coded inputs `{1.0f, 5.0f, -2.0f, 10.0f}` (main.c:94). -/
def test_values : List ℚ := [1, 5, -2, 10]

/-- The expected output `test_values[i] + 1.0f` (main.c:114). -/
def expectedOf (x : ℚ) : ℚ := x + 1

/-- One iteration of the trial loop (main.c:98-123): the input value is
written to the input buffer, `Invoke` runs; a non-ok status records
`invokeFailed` and the loop continues; otherwise the output is read,
`diff = result - expected` is formed and the trial warns exactly when
`diff < -0.1f || diff > 0.1f`. -/
def runTrial (invoke : ℚ → Status × ℚ) (x : ℚ) : TrialResult :=
  match invoke x with
  | (Status.err c, _) => TrialResult.invokeFailed c
  | (Status.ok, result) =>
      let diff := result - expectedOf x
      if diff < -tolerance ∨ diff > tolerance then
        TrialResult.passWithWarning result
      else
        TrialResult.pass result

/-- The whole trial loop over a list of inputs (main.c:98): each input is
processed in order, one `Invoke` per input, failures do not stop the
loop. -/
def runTrials (invoke : ℚ → Status × ℚ) (xs : List ℚ) : List TrialResult :=
  xs.map (runTrial invoke)

/-- Number of trials recorded `invokeFailed` in a result list. -/
def countInvokeFailed (rs : List TrialResult) : ℕ :=
  (rs.filter fun r =>
    match r with
    | TrialResult.invokeFailed _ => true
    | _ => false).length

/-- The external collaborators of `app_main`, as the harness observes them:
the version field of the parsed model and the engine's supported schema
version constant (main.c:40), whether `malloc` of the arena succeeds
(main.c:52-53), the status of `AllocateTensors` (main.c:65), whether
`interpreter->input(0)` / `interpreter->output(0)` are non-null
(main.c:74-77), and the engine's `Invoke` behaviour as a function of the
input buffer value (main.c:100-113). -/
structure Engine where
  modelVersion : ℤ
  supportedVersion : ℤ
  mallocOk : Bool
  allocateStatus : Status
  inputPresent : Bool
  outputPresent : Bool
  invoke : ℚ → Status × ℚ

/-- Exit path of one `app_main` run. -/
inductive RunOutcome where
  | tflmUnavailable : RunOutcome
  | schemaVersionMismatch : RunOutcome
  | arenaAllocFailed : RunOutcome
  | allocateTensorsFailed : ℤ → RunOutcome
  | missingTensorDescriptor : RunOutcome
  | completed : List TrialResult → RunOutcome
deriving DecidableEq, Repr

/-- Observable trace of one `app_main` run: the exit path plus resource
and logging events. `freeCount` counts executions of
`free(tensor_arena)` (main.c:68, main.c:79, main.c:125); `allocateCalls`
counts `AllocateTensors()` calls; `inputWrites` counts writes to
`input->data.f[0]`; `invokeCalls` counts `interpreter->Invoke()` calls;
`errLogCount` counts `ESP_LOGE` lines; `heartbeatReached` records whether
control reached the `while(1)` loop at main.c:136. -/
structure RunTrace where
  outcome : RunOutcome
  arenaAllocated : Bool
  freeCount : ℕ
  allocateCalls : ℕ
  inputWrites : ℕ
  invokeCalls : ℕ
  errLogCount : ℕ
  heartbeatReached : Bool
deriving DecidableEq, Repr

/-- Trace of the `#else` path (main.c:128-133): TFLM headers absent, four
`ESP_LOGE` lines, control falls through to the heartbeat loop. -/
def unavailableTrace : RunTrace :=
  { outcome := RunOutcome.tflmUnavailable, arenaAllocated := false,
    freeCount := 0, allocateCalls := 0, inputWrites := 0, invokeCalls := 0,
    errLogCount := 4, heartbeatReached := true }

/-- Trace of the schema-version-mismatch path (main.c:40-44): one
`ESP_LOGE` line, `return` before the arena `malloc`, before
`AllocateTensors`, before any trial and before the heartbeat loop. -/
def mismatchTrace : RunTrace :=
  { outcome := RunOutcome.schemaVersionMismatch, arenaAllocated := false,
    freeCount := 0, allocateCalls := 0, inputWrites := 0, invokeCalls := 0,
    errLogCount := 1, heartbeatReached := false }

/-- Trace of the arena-`malloc`-failure path (main.c:53-56): one
`ESP_LOGE` line, `return` with nothing to free. -/
def oomTrace : RunTrace :=
  { outcome := RunOutcome.arenaAllocFailed, arenaAllocated := false,
    freeCount := 0, allocateCalls := 0, inputWrites := 0, invokeCalls := 0,
    errLogCount := 1, heartbeatReached := false }

/-- Trace of the `AllocateTensors`-failure path (main.c:66-70): one
`ESP_LOGE` line carrying the numeric status `c`, one `free(tensor_arena)`,
`return` before any trial; `AllocateTensors` was called exactly once. -/
def allocFailTrace (c : ℤ) : RunTrace :=
  { outcome := RunOutcome.allocateTensorsFailed c, arenaAllocated := true,
    freeCount := 1, allocateCalls := 1, inputWrites := 0, invokeCalls := 0,
    errLogCount := 1, heartbeatReached := false }

/-- Trace of the null-descriptor path (main.c:77-81): one `ESP_LOGE` line,
one `free(tensor_arena)`, `return` before any input write or `Invoke`. -/
def missingDescTrace : RunTrace :=
  { outcome := RunOutcome.missingTensorDescriptor, arenaAllocated := true,
    freeCount := 1, allocateCalls := 1, inputWrites := 0, invokeCalls := 0,
    errLogCount := 1, heartbeatReached := false }

/-- Trace of the full run (main.c:94-126): all four trials execute (one
input write and one `Invoke` each), one `ESP_LOGE` per failed `Invoke`,
one `free(tensor_arena)` at main.c:125, then the heartbeat loop. -/
def completedTrace (e : Engine) : RunTrace :=
  { outcome := RunOutcome.completed (runTrials e.invoke test_values),
    arenaAllocated := true, freeCount := 1, allocateCalls := 1,
    inputWrites := test_values.length, invokeCalls := test_values.length,
    errLogCount := countInvokeFailed (runTrials e.invoke test_values),
    heartbeatReached := true }

/-- `app_main` (main.c:27-140). `avail` is the compile-time
`TFLM_AVAILABLE` flag (main.c:9-23). With TFLM present: version check
(main.c:40, early return on mismatch), arena `malloc` (main.c:52, early
return on null), `AllocateTensors` (main.c:65, on failure free the arena
and return), null check of the input/output descriptors (main.c:77, on
failure free the arena and return), the four-trial loop,
`free(tensor_arena)` (main.c:125) and the heartbeat loop (main.c:136). -/
def app_main (avail : Bool) (e : Engine) : RunTrace :=
  if avail = false then unavailableTrace
  else if e.modelVersion ≠ e.supportedVersion then mismatchTrace
  else if e.mallocOk = false then oomTrace
  else
    match e.allocateStatus with
    | Status.err c => allocFailTrace c
    | Status.ok =>
        if e.inputPresent = false ∨ e.outputPresent = false then missingDescTrace
        else completedTrace e

/-- A possibly stateful engine `Invoke`: from the engine's internal state
and the value written into the input buffer (main.c:100), produce the
status and output buffer value (main.c:105, main.c:113) and the engine's
new internal state. -/
def StatefulInvoke (S : Type) : Type := S → ℚ → (Status × ℚ) × S

/-- One trial-loop iteration (main.c:98-123) against a possibly stateful
engine: same control flow as `runTrial`, threading the engine state. -/
def runTrialS {S : Type} (invoke : StatefulInvoke S) (s : S) (x : ℚ) :
    TrialResult × S :=
  match invoke s x with
  | ((Status.err c, _), s2) => (TrialResult.invokeFailed c, s2)
  | ((Status.ok, result), s2) =>
      let diff := result - expectedOf x
      if diff < -tolerance ∨ diff > tolerance then
        (TrialResult.passWithWarning result, s2)
      else
        (TrialResult.pass result, s2)

/-- The harness resources alive while the heartbeat loop runs: the arena
bytes, the embedded model bytes, and the interpreter handle. -/
structure HarnessResources where
  arenaBytes : List ℕ
  modelBytes : List ℕ
  handleId : ℕ
deriving DecidableEq, Repr

/-- One iteration of the idle loop body (main.c:137-138): query the free
heap size, log it, delay. The body only reads: the resources come back
unchanged and the logged value is exactly the queried free-heap value. -/
def heartbeatIter (r : HarnessResources) (freeHeap : ℕ) :
    HarnessResources × ℕ :=
  (r, freeHeap)

/-- An `Invoke` implementing the reference function y = x + 1 (main.c:114)
with ok status. -/
def addOneInvoke : ℚ → Status × ℚ := fun x => (Status.ok, x + 1)

/-- An engine whose setup fully succeeds and whose `Invoke` computes
x + 1. -/
def addOneEngine : Engine :=
  { modelVersion := 3, supportedVersion := 3, mallocOk := true,
    allocateStatus := Status.ok, inputPresent := true, outputPresent := true,
    invoke := addOneInvoke }

/-- `addOneEngine` except the model declares schema version 5 while 3 is
supported. -/
def mismatchEngine : Engine := { addOneEngine with modelVersion := 5 }

/-- `addOneEngine` except `AllocateTensors` fails with status 1. -/
def allocFailEngine : Engine := { addOneEngine with allocateStatus := Status.err 1 }

/-- `addOneEngine` except the input tensor descriptor is null. -/
def noInputEngine : Engine := { addOneEngine with inputPresent := false }

/-- An `Invoke` that fails with status 1 on input 5 and computes x + 1
elsewhere. -/
def flakyInvoke : ℚ → Status × ℚ :=
  fun x => if x = 5 then (Status.err 1, 0) else (Status.ok, x + 1)

/-- A stateful add-one `Invoke` whose internal state counts calls: its
status and output depend only on the input buffer value. -/
def counterInvoke : StatefulInvoke ℕ := fun s x => ((Status.ok, x + 1), s + 1)

/-- Exhaustive case analysis of `app_main`: exactly one of the six exit
paths is taken, each under its guard conditions. -/
theorem app_main_trace_cases (avail : Bool) (e : Engine) :
    (avail = false ∧ app_main avail e = unavailableTrace) ∨
    (avail = true ∧ e.modelVersion ≠ e.supportedVersion ∧
      app_main avail e = mismatchTrace) ∨
    (avail = true ∧ e.modelVersion = e.supportedVersion ∧
      e.mallocOk = false ∧ app_main avail e = oomTrace) ∨
    (∃ c, avail = true ∧ e.modelVersion = e.supportedVersion ∧
      e.mallocOk = true ∧ e.allocateStatus = Status.err c ∧
      app_main avail e = allocFailTrace c) ∨
    (avail = true ∧ e.modelVersion = e.supportedVersion ∧
      e.mallocOk = true ∧ e.allocateStatus = Status.ok ∧
      (e.inputPresent = false ∨ e.outputPresent = false) ∧
      app_main avail e = missingDescTrace) ∨
    (avail = true ∧ e.modelVersion = e.supportedVersion ∧
      e.mallocOk = true ∧ e.allocateStatus = Status.ok ∧
      e.inputPresent = true ∧ e.outputPresent = true ∧
      app_main avail e = completedTrace e) := by
  by_cases h1 : avail = false
  · exact Or.inl ⟨h1, by simp [app_main, h1]⟩
  have h1' : avail = true := by
    cases avail
    · exact absurd rfl h1
    · rfl
  by_cases h2 : e.modelVersion = e.supportedVersion
  · by_cases h3 : e.mallocOk = false
    · exact Or.inr (Or.inr (Or.inl ⟨h1', h2, h3, by simp [app_main, h1, h2, h3]⟩))
    have h3' : e.mallocOk = true := by
      cases hm : e.mallocOk
      · exact absurd hm h3
      · rfl
    cases ha : e.allocateStatus with
    | err c =>
        refine Or.inr (Or.inr (Or.inr (Or.inl ⟨c, h1', h2, h3', rfl, ?_⟩)))
        simp [app_main, h1, h2, h3, ha]
    | ok =>
        by_cases h4 : e.inputPresent = false ∨ e.outputPresent = false
        · refine Or.inr (Or.inr (Or.inr (Or.inr (Or.inl
            ⟨h1', h2, h3', rfl, h4, ?_⟩))))
          simp [app_main, h1, h2, h3, ha, h4]
        · push_neg at h4
          obtain ⟨hi, ho⟩ := h4
          have hi' : e.inputPresent = true := by
            cases hp : e.inputPresent
            · exact absurd hp hi
            · rfl
          have ho' : e.outputPresent = true := by
            cases hp : e.outputPresent
            · exact absurd hp ho
            · rfl
          refine Or.inr (Or.inr (Or.inr (Or.inr (Or.inr
            ⟨h1', h2, h3', rfl, hi', ho', ?_⟩))))
          simp [app_main, h1, h2, h3, ha, hi', ho']
  · exact Or.inr (Or.inl ⟨h1', h2, by simp [app_main, h1, h2]⟩)

/-- C1: for a trial whose `Invoke` succeeds with output `y`, the trial is
classified PASS (no warning) exactly when the difference between the
actual output and the expected value `x + 1` lies in the inclusive
interval `[-tolerance, tolerance]` with `tolerance = 1/10`, and
PASS_WITH_WARNING (warning emitted) exactly when the difference lies
outside that interval; in either case the result is one of those two —
never a hard failure — and a batch over any input list still yields one
result per input, so the run completes. -/
theorem trial_tolerance_classification (invoke : ℚ → Status × ℚ) (x y : ℚ)
    (xs : List ℚ) (h : invoke x = (Status.ok, y)) :
    (runTrial invoke x = TrialResult.pass y ↔
      -tolerance ≤ y - expectedOf x ∧ y - expectedOf x ≤ tolerance) ∧
    (runTrial invoke x = TrialResult.passWithWarning y ↔
      (y - expectedOf x < -tolerance ∨ y - expectedOf x > tolerance)) ∧
    (runTrial invoke x = TrialResult.pass y ∨
      runTrial invoke x = TrialResult.passWithWarning y) ∧
    (runTrials invoke xs).length = xs.length := by
  have hrw : runTrial invoke x =
      (if y - expectedOf x < -tolerance ∨ y - expectedOf x > tolerance
       then TrialResult.passWithWarning y else TrialResult.pass y) := by
    unfold runTrial
    rw [h]
  refine ⟨?_, ?_, ?_, by simp [runTrials]⟩
  · rw [hrw]
    by_cases hc : y - expectedOf x < -tolerance ∨ y - expectedOf x > tolerance
    · rw [if_pos hc]
      refine iff_of_false (by simp) ?_
      rintro ⟨hl, hr⟩
      rcases hc with hc | hc <;> linarith
    · rw [if_neg hc]
      push_neg at hc
      exact iff_of_true rfl hc
  · rw [hrw]
    by_cases hc : y - expectedOf x < -tolerance ∨ y - expectedOf x > tolerance
    · rw [if_pos hc]
      exact iff_of_true rfl hc
    · rw [if_neg hc]
      exact iff_of_false (by simp) hc
  · rw [hrw]
    by_cases hc : y - expectedOf x < -tolerance ∨ y - expectedOf x > tolerance
    · exact Or.inr (by rw [if_pos hc])
    · exact Or.inl (by rw [if_neg hc])

/-- Witness for C1: the add-one invoke at input 1 returns ok with output 2,
and the classification facts hold there with the four hard-coded inputs as
the batch. -/
theorem trial_tolerance_classification_witness :
    addOneInvoke 1 = (Status.ok, 2) ∧
    ((runTrial addOneInvoke 1 = TrialResult.pass 2 ↔
      -tolerance ≤ (2 : ℚ) - expectedOf 1 ∧ (2 : ℚ) - expectedOf 1 ≤ tolerance) ∧
     (runTrial addOneInvoke 1 = TrialResult.passWithWarning 2 ↔
      ((2 : ℚ) - expectedOf 1 < -tolerance ∨ (2 : ℚ) - expectedOf 1 > tolerance)) ∧
     (runTrial addOneInvoke 1 = TrialResult.pass 2 ∨
      runTrial addOneInvoke 1 = TrialResult.passWithWarning 2) ∧
     (runTrials addOneInvoke test_values).length = test_values.length) :=
  ⟨by norm_num [addOneInvoke],
   trial_tolerance_classification addOneInvoke 1 2 test_values
     (by norm_num [addOneInvoke])⟩

/-- C2: a model declaring the supported schema version passes the gate and
setup proceeds (the run never takes the mismatch exit); any other declared
version exits with the schema-version-mismatch trace — exactly one fatal
log line, no arena allocated, no `AllocateTensors` call, no input write,
no `Invoke`, no heartbeat. -/
theorem schema_version_gate (e : Engine) :
    (e.modelVersion ≠ e.supportedVersion → app_main true e = mismatchTrace) ∧
    (e.modelVersion = e.supportedVersion →
      (app_main true e).outcome ≠ RunOutcome.schemaVersionMismatch) := by
  constructor
  · intro h
    simp [app_main, h]
  · intro h
    rcases app_main_trace_cases true e with
      ⟨hf, _⟩ | ⟨_, hne, _⟩ | ⟨_, _, _, ht⟩ | ⟨c, _, _, _, _, ht⟩ |
      ⟨_, _, _, _, _, ht⟩ | ⟨_, _, _, _, _, _, ht⟩
    · exact absurd hf (by simp)
    · exact absurd h hne
    · rw [ht]
      simp [oomTrace]
    · rw [ht]
      simp [allocFailTrace]
    · rw [ht]
      simp [missingDescTrace]
    · rw [ht]
      simp [completedTrace]

/-- Witness for C2: the engine whose model declares version 5 against
supported version 3 exits with the mismatch trace. -/
theorem schema_version_gate_witness :
    mismatchEngine.modelVersion ≠ mismatchEngine.supportedVersion ∧
    app_main true mismatchEngine = mismatchTrace :=
  ⟨by norm_num [mismatchEngine, addOneEngine],
   (schema_version_gate mismatchEngine).1
     (by norm_num [mismatchEngine, addOneEngine])⟩

/-- C3: on every run, `free(tensor_arena)` executes exactly once when the
arena allocation succeeded and never otherwise — no exit path frees the
arena twice and none leaks it. -/
theorem arena_released_exactly_once (avail : Bool) (e : Engine) :
    (app_main avail e).freeCount =
      (if (app_main avail e).arenaAllocated = true then 1 else 0) := by
  rcases app_main_trace_cases avail e with
    ⟨_, ht⟩ | ⟨_, _, ht⟩ | ⟨_, _, _, ht⟩ | ⟨c, _, _, _, _, ht⟩ |
    ⟨_, _, _, _, _, ht⟩ | ⟨_, _, _, _, _, _, ht⟩ <;>
  rw [ht] <;>
  simp [unavailableTrace, mismatchTrace, oomTrace, allocFailTrace,
    missingDescTrace, completedTrace]

/-- C4: a trial whose `Invoke` returns a non-success status is recorded
`invokeFailed` with that status code and the batch continues: the whole
batch's results are the earlier trials' results, then `invokeFailed`, then
the later trials' normal results — one result per input, no retry, no
abort. -/
theorem invoke_failure_isolated (invoke : ℚ → Status × ℚ) (x out : ℚ)
    (c : ℤ) (l1 l2 : List ℚ) (h : invoke x = (Status.err c, out)) :
    runTrials invoke (l1 ++ x :: l2) =
      runTrials invoke l1 ++
        TrialResult.invokeFailed c :: runTrials invoke l2 := by
  have hx : runTrial invoke x = TrialResult.invokeFailed c := by
    unfold runTrial
    rw [h]
  unfold runTrials
  rw [List.map_append, List.map_cons, hx]

/-- Witness for C4: an invoke failing with status 1 on input 5 inside the
batch [1, 5, 10]. -/
theorem invoke_failure_isolated_witness :
    flakyInvoke 5 = (Status.err 1, 0) ∧
    runTrials flakyInvoke ([1] ++ 5 :: [10]) =
      runTrials flakyInvoke [1] ++
        TrialResult.invokeFailed 1 :: runTrials flakyInvoke [10] :=
  ⟨by norm_num [flakyInvoke],
   invoke_failure_isolated flakyInvoke 5 0 1 [1] [10]
     (by norm_num [flakyInvoke])⟩

/-- C5: with setup otherwise successful, a null input or a null output
descriptor makes the run exit with the missing-descriptor trace before any
trial: zero input writes, zero `Invoke` calls, one fatal log line, and the
arena released exactly once. -/
theorem missing_descriptor_aborts (e : Engine)
    (hv : e.modelVersion = e.supportedVersion) (hm : e.mallocOk = true)
    (ha : e.allocateStatus = Status.ok)
    (hd : e.inputPresent = false ∨ e.outputPresent = false) :
    app_main true e = missingDescTrace := by
  simp [app_main, hv, hm, ha, hd]

/-- Witness for C5: the engine exposing a null input descriptor. -/
theorem missing_descriptor_aborts_witness :
    noInputEngine.modelVersion = noInputEngine.supportedVersion ∧
    noInputEngine.mallocOk = true ∧
    noInputEngine.allocateStatus = Status.ok ∧
    (noInputEngine.inputPresent = false ∨
      noInputEngine.outputPresent = false) ∧
    app_main true noInputEngine = missingDescTrace :=
  ⟨rfl, rfl, rfl, Or.inl rfl,
   missing_descriptor_aborts noInputEngine rfl rfl rfl (Or.inl rfl)⟩

/-- C6: with version check and arena allocation passed, a failing
`AllocateTensors` with status `c` exits with the allocate-failure trace —
the numeric status recorded, one fatal log line, the arena released, no
trial, no heartbeat — and on every run whatsoever `AllocateTensors` is
called at most once, so no retry with a larger arena ever happens. -/
theorem allocate_failure_fatal (e : Engine) (c : ℤ)
    (hv : e.modelVersion = e.supportedVersion) (hm : e.mallocOk = true)
    (ha : e.allocateStatus = Status.err c)
    (avail2 : Bool) (e2 : Engine) :
    app_main true e = allocFailTrace c ∧
    (app_main avail2 e2).allocateCalls ≤ 1 := by
  constructor
  · simp [app_main, hv, hm, ha]
  · rcases app_main_trace_cases avail2 e2 with
      ⟨_, ht⟩ | ⟨_, _, ht⟩ | ⟨_, _, _, ht⟩ | ⟨c2, _, _, _, _, ht⟩ |
      ⟨_, _, _, _, _, ht⟩ | ⟨_, _, _, _, _, _, ht⟩ <;>
    rw [ht] <;>
    simp [unavailableTrace, mismatchTrace, oomTrace, allocFailTrace,
      missingDescTrace, completedTrace]

/-- Witness for C6: the engine whose `AllocateTensors` fails with
status 1. -/
theorem allocate_failure_fatal_witness :
    allocFailEngine.modelVersion = allocFailEngine.supportedVersion ∧
    allocFailEngine.mallocOk = true ∧
    allocFailEngine.allocateStatus = Status.err 1 ∧
    (app_main true allocFailEngine = allocFailTrace 1 ∧
     (app_main true allocFailEngine).allocateCalls ≤ 1) :=
  ⟨rfl, rfl, rfl,
   allocate_failure_fatal allocFailEngine 1 rfl rfl rfl true allocFailEngine⟩

/-- C7: with setup fully successful and `Invoke` computing x + 1, the run
completes with exactly four results — PASS 2, PASS 6, PASS (-1), PASS 11,
one per hard-coded input, every one PASS with no warning — zero trials
recorded `invokeFailed` (so zero error log lines), four input writes, four
`Invoke` calls, the arena released once and the heartbeat reached. -/
theorem full_success_all_pass (e : Engine)
    (hv : e.modelVersion = e.supportedVersion) (hm : e.mallocOk = true)
    (ha : e.allocateStatus = Status.ok) (hi : e.inputPresent = true)
    (ho : e.outputPresent = true) (hf : e.invoke = addOneInvoke) :
    app_main true e =
      { outcome := RunOutcome.completed
          [TrialResult.pass 2, TrialResult.pass 6, TrialResult.pass (-1),
           TrialResult.pass 11],
        arenaAllocated := true, freeCount := 1, allocateCalls := 1,
        inputWrites := 4, invokeCalls := 4, errLogCount := 0,
        heartbeatReached := true } := by
  have hres : runTrials addOneInvoke test_values =
      [TrialResult.pass 2, TrialResult.pass 6, TrialResult.pass (-1),
       TrialResult.pass 11] := by
    norm_num [runTrials, runTrial, addOneInvoke, test_values, expectedOf,
      tolerance]
  have hc : app_main true e = completedTrace e := by
    simp [app_main, hv, hm, ha, hi, ho]
  rw [hc]
  unfold completedTrace
  rw [hf, hres]
  norm_num [countInvokeFailed, test_values]

/-- Witness for C7: the fully successful add-one engine. -/
theorem full_success_all_pass_witness :
    addOneEngine.modelVersion = addOneEngine.supportedVersion ∧
    addOneEngine.mallocOk = true ∧
    addOneEngine.allocateStatus = Status.ok ∧
    addOneEngine.inputPresent = true ∧
    addOneEngine.outputPresent = true ∧
    addOneEngine.invoke = addOneInvoke ∧
    app_main true addOneEngine =
      { outcome := RunOutcome.completed
          [TrialResult.pass 2, TrialResult.pass 6, TrialResult.pass (-1),
           TrialResult.pass 11],
        arenaAllocated := true, freeCount := 1, allocateCalls := 1,
        inputWrites := 4, invokeCalls := 4, errLogCount := 0,
        heartbeatReached := true } :=
  ⟨rfl, rfl, rfl, rfl, rfl, rfl,
   full_success_all_pass addOneEngine rfl rfl rfl rfl rfl rfl⟩

/-- C8: under the hypothesis that the engine's `Invoke` status and output
are a deterministic function `f` of the input buffer value (independent of
the engine's internal state), running the same trial twice in a row with
the same input on the same handle yields the same result — same output
value and same classification. -/
theorem trial_idempotent {S : Type} (invoke : StatefulInvoke S)
    (f : ℚ → Status × ℚ) (hdet : ∀ s x, (invoke s x).1 = f x)
    (s : S) (x : ℚ) :
    (runTrialS invoke (runTrialS invoke s x).2 x).1 =
      (runTrialS invoke s x).1 := by
  have key : ∀ t : S, (runTrialS invoke t x).1 = runTrial f x := by
    intro t
    have hd := hdet t x
    unfold runTrialS runTrial
    rcases hfx : invoke t x with ⟨⟨st, out⟩, t2⟩
    rw [hfx] at hd
    have hd2 : (st, out) = f x := hd
    rw [← hd2]
    cases st
    · by_cases hc :
        out - expectedOf x < -tolerance ∨ tolerance < out - expectedOf x <;>
        simp [hc]
    · simp
  rw [key, key]

/-- Witness for C8: a stateful call-counting add-one invoke, run twice on
input 1 from state 0. -/
theorem trial_idempotent_witness :
    (∀ (s : ℕ) (x : ℚ), (counterInvoke s x).1 = addOneInvoke x) ∧
    (runTrialS counterInvoke (runTrialS counterInvoke 0 1).2 1).1 =
      (runTrialS counterInvoke 0 1).1 :=
  ⟨fun _ _ => rfl,
   trial_idempotent counterInvoke addOneInvoke (fun _ _ => rfl) 0 1⟩

/-- C9: whenever the heartbeat loop is reached on the TFLM-present path,
the run's outcome already carries the full list of trial results (the
trial phase completed strictly before it), and a heartbeat iteration
mutates nothing: the arena, model and handle come back unchanged and the
logged value is exactly the queried free-heap value. -/
theorem heartbeat_after_trials_no_mutation (e : Engine)
    (r : HarnessResources) (freeHeap : ℕ)
    (h : (app_main true e).heartbeatReached = true) :
    (app_main true e).outcome =
      RunOutcome.completed (runTrials e.invoke test_values) ∧
    heartbeatIter r freeHeap = (r, freeHeap) := by
  refine ⟨?_, rfl⟩
  rcases app_main_trace_cases true e with
    ⟨hf, _⟩ | ⟨_, _, ht⟩ | ⟨_, _, _, ht⟩ | ⟨c, _, _, _, _, ht⟩ |
    ⟨_, _, _, _, _, ht⟩ | ⟨_, _, _, _, _, _, ht⟩
  · exact absurd hf (by simp)
  · rw [ht] at h
    exact absurd h (by simp [mismatchTrace])
  · rw [ht] at h
    exact absurd h (by simp [oomTrace])
  · rw [ht] at h
    exact absurd h (by simp [allocFailTrace])
  · rw [ht] at h
    exact absurd h (by simp [missingDescTrace])
  · rw [ht]
    rfl

/-- Witness for C9: the fully successful add-one engine reaches the
heartbeat, with concrete resources and a free-heap reading of 1024. -/
theorem heartbeat_after_trials_no_mutation_witness :
    (app_main true addOneEngine).heartbeatReached = true ∧
    ((app_main true addOneEngine).outcome =
      RunOutcome.completed (runTrials addOneEngine.invoke test_values) ∧
     heartbeatIter ⟨[0], [1], 2⟩ 1024 = (⟨[0], [1], 2⟩, 1024)) := by
  have hb : (app_main true addOneEngine).heartbeatReached = true := rfl
  exact ⟨hb,
    heartbeat_after_trials_no_mutation addOneEngine ⟨[0], [1], 2⟩ 1024 hb⟩

/-- C10: the heartbeat loop is reached exactly when either TFLM is absent
at build time or the whole setup succeeded (version match, arena
allocated, tensors allocated, both descriptors present) and the trial
phase ran; every setup-phase failure returns from `app_main` before it. -/
theorem heartbeat_only_after_full_setup (avail : Bool) (e : Engine) :
    (app_main avail e).heartbeatReached = true ↔
      (avail = false ∨
        (e.modelVersion = e.supportedVersion ∧ e.mallocOk = true ∧
         e.allocateStatus = Status.ok ∧ e.inputPresent = true ∧
         e.outputPresent = true)) := by
  constructor
  · intro h
    rcases app_main_trace_cases avail e with
      ⟨hf, _⟩ | ⟨_, _, ht⟩ | ⟨_, _, _, ht⟩ | ⟨c, _, _, _, _, ht⟩ |
      ⟨_, _, _, _, _, ht⟩ | ⟨_, hv, hm, ha, hi, ho, _⟩
    · exact Or.inl hf
    · rw [ht] at h
      exact absurd h (by simp [mismatchTrace])
    · rw [ht] at h
      exact absurd h (by simp [oomTrace])
    · rw [ht] at h
      exact absurd h (by simp [allocFailTrace])
    · rw [ht] at h
      exact absurd h (by simp [missingDescTrace])
    · exact Or.inr ⟨hv, hm, ha, hi, ho⟩
  · intro h
    rcases h with h | ⟨hv, hm, ha, hi, ho⟩
    · simp [app_main, h, unavailableTrace]
    · cases avail
      · simp [app_main, unavailableTrace]
      · simp [app_main, hv, hm, ha, hi, ho, completedTrace]

end TflmHarness
